import Mathlib

/-!
Shallow embedding of the admin-directory router
(back-end/src/routers/admin.py): the Admin entity, the role-gated CRUD
handlers and the dynamic search-predicate construction, with the
persistence gateway modelled as an explicit list of rows threaded
through every handler.
-/

/-- The admin role enumeration (utilities.enumerables.AdminRole). -/
inductive AdminRole
  | SUPER_ADMIN
  | GENERAL_ADMIN
deriving DecidableEq, Repr

/-- The admin status enumeration (utilities.enumerables.AdminStatus). -/
inductive AdminStatus
  | ACTIVE
  | INACTIVE
deriving DecidableEq, Repr

/-- The logical combinator for search (utilities.enumerables.LogicalOperator). -/
inductive LogicalOperator
  | AND
  | OR
  | NOT
deriving DecidableEq, Repr

/-- One persisted Admin row (models.relational_models.Admin).  UUIDs are
modelled as natural numbers.  The fields `prefix_name` and `suffix_name`
embed the source columns for the optional name prefix and suffix. -/
structure Admin where
  id : Nat
  prefix_name : Option String
  first_name : String
  middle_name : Option String
  last_name : String
  suffix_name : Option String
  national_id : String
  gender : String
  birthday : String
  phone : Nat
  address : String
  username : String
  email : String
  role : AdminRole
  status : AdminStatus
  password : String
deriving DecidableEq, Repr

/-- The request body of the create endpoint (schemas.admin.AdminCreate):
the full field set with a plaintext password. -/
structure AdminCreate where
  prefix_name : Option String
  first_name : String
  middle_name : Option String
  last_name : String
  suffix_name : Option String
  national_id : String
  gender : String
  birthday : String
  phone : Nat
  address : String
  username : String
  email : String
  role : AdminRole
  status : AdminStatus
  password : String
deriving DecidableEq, Repr

/-- The sparse request body of the patch endpoint (schemas.admin.AdminUpdate):
every field optional; `none` models a field absent from the payload, which
model_dump with unset fields excluded drops before merging. -/
structure AdminUpdate where
  prefix_name : Option (Option String)
  first_name : Option String
  middle_name : Option (Option String)
  last_name : Option String
  suffix_name : Option (Option String)
  national_id : Option String
  gender : Option String
  birthday : Option String
  phone : Option Nat
  address : Option String
  username : Option String
  email : Option String
  role : Option AdminRole
  status : Option AdminStatus
  password : Option String
deriving DecidableEq, Repr

/-- The payload with every field absent. -/
def AdminUpdate.emptyPayload : AdminUpdate :=
  ⟨none, none, none, none, none, none, none, none, none, none, none, none,
   none, none, none⟩

/-- The authenticated caller identity resolved by the auth dependency
(the `_user` dict): an id and a role claim. -/
structure Caller where
  id : Nat
  role : AdminRole
deriving DecidableEq, Repr

/-- The persistence gateway state: the Admin table as a list of rows. -/
abbrev Database : Type := List Admin

/-- A caller-facing error (fastapi.HTTPException): status code and detail. -/
structure HttpError where
  status_code : Nat
  detail : String
deriving DecidableEq, Repr

/-- The outcome of a handler: a payload or an HTTP error. -/
inductive ApiResult (α : Type)
  | ok : α → ApiResult α
  | err : HttpError → ApiResult α
deriving DecidableEq, Repr

/-- Modelled from the spec: the credential hasher
(utilities.authentication.get_password_hash) is an external collaborator
whose code is outside this router; the spec states only that it is a
one-way transform from plaintext to a storable hash.  Modelled as a
concrete injective tagging function. -/
def get_password_hash (plaintext : String) : String :=
  String.append "hash$" plaintext

/-- session.get(Admin, key): primary-key lookup in the table. -/
def sessionGet (db : Database) (key : Nat) : Option Admin :=
  List.find? (fun a => a.id == key) db

/-- The relational unique constraints on the Admin table: id (primary
key), username, email and national_id are each unique; inserting a row
that collides raises IntegrityError at commit. -/
def violatesUnique (db : Database) (a : Admin) : Bool :=
  List.any db (fun x =>
    x.id == a.id || x.username == a.username || x.email == a.email ||
      x.national_id == a.national_id)

/-- The 409 error of create_admin (duplicate username/email/national id). -/
def conflictErr : HttpError :=
  ⟨409, "نام کاربری یا پست الکترونیکی یا کد ملی قبلا ثبت شده است"⟩

/-- The 500 error of create_admin on an unanticipated persistence failure. -/
def internalCreateErr (e : String) : HttpError :=
  ⟨500, String.append e "خطا در ایجاد ادمین: "⟩

/-- The 403 error of get_admin. -/
def forbiddenViewErr : HttpError :=
  ⟨403, "شما دسترسی لازم برای مشاهده اطلاعات ادمین های  دیگر را ندارید"⟩

/-- The 403 error of patch_admin. -/
def forbiddenEditErr : HttpError :=
  ⟨403, "شما دسترسی لازم برای ویرایش اطلاعات ادمین های  دیگر را ندارید"⟩

/-- The 403 error of delete_admin. -/
def forbiddenDeleteErr : HttpError :=
  ⟨403, "شما دسترسی لازم برای حذف ادمین های  دیگر را ندارید"⟩

/-- The 404 error of get/patch/delete when the id resolves to no row. -/
def notFoundErr : HttpError :=
  ⟨404, "ادمین پیدا نشد"⟩

/-- The 400 error of search_admins when no filter built a condition. -/
def noFilterErr : HttpError :=
  ⟨400, "هیچ مقداری برای جست و جو وجود ندارد"⟩

/-- The 404 error of search_admins when the query returns no rows. -/
def searchNotFoundErr : HttpError :=
  ⟨404, "مشتری پیدا نشد"⟩

/-- The row built by create_admin (lines 63-89): the caller-supplied
fields, the role forced to GENERAL_ADMIN for a GENERAL_ADMIN caller and
honored otherwise, and the hashed password. -/
def buildAdmin (caller : Caller) (ac : AdminCreate) (newId : Nat) : Admin :=
  { id := newId
    prefix_name := ac.prefix_name
    first_name := ac.first_name
    middle_name := ac.middle_name
    last_name := ac.last_name
    suffix_name := ac.suffix_name
    national_id := ac.national_id
    gender := ac.gender
    birthday := ac.birthday
    phone := ac.phone
    address := ac.address
    username := ac.username
    email := ac.email
    role := if caller.role == AdminRole.GENERAL_ADMIN
            then AdminRole.GENERAL_ADMIN else ac.role
    status := ac.status
    password := get_password_hash ac.password }

/-- POST /admins/ (create_admin).  `newId` models the fresh primary key
the ORM assigns, and `fault` models an unanticipated persistence failure
at commit (`none` when the gateway behaves).  On IntegrityError the
transaction is rolled back and 409 raised; on any other failure it is
rolled back and 500 raised; on success the row is appended. -/
def create_admin (db : Database) (caller : Caller) (ac : AdminCreate)
    (newId : Nat) (fault : Option String) : ApiResult Admin × Database :=
  if violatesUnique db (buildAdmin caller ac newId) then
    (ApiResult.err conflictErr, db)
  else
    match fault with
    | some e => (ApiResult.err (internalCreateErr e), db)
    | none =>
      (ApiResult.ok (buildAdmin caller ac newId),
       db ++ [buildAdmin caller ac newId])

/-- The result of GET /admins/: a single own record for a GENERAL_ADMIN
caller (response is the bare object, possibly null), or a page. -/
inductive ListResult
  | single : Option Admin → ListResult
  | page : List Admin → ListResult
deriving DecidableEq, Repr

/-- GET /admins/ (get_admins): a GENERAL_ADMIN caller gets their own row
by primary key, ignoring offset and limit; otherwise the offset/limit
window of the table. -/
def get_admins (db : Database) (caller : Caller)
    (offset limit : Nat) : ListResult :=
  if caller.role == AdminRole.GENERAL_ADMIN then
    ListResult.single (sessionGet db caller.id)
  else
    ListResult.page (List.take limit (List.drop offset db))

/-- GET /admins/{admin_id} (get_admin): ownership check for a
GENERAL_ADMIN caller, then primary-key fetch, 404 when absent. -/
def get_admin (db : Database) (caller : Caller) (admin_id : Nat) :
    ApiResult Admin × Database :=
  if caller.role == AdminRole.GENERAL_ADMIN && admin_id != caller.id then
    (ApiResult.err forbiddenViewErr, db)
  else
    match sessionGet db admin_id with
    | none => (ApiResult.err notFoundErr, db)
    | some a => (ApiResult.ok a, db)

/-- sqlmodel_update with the unset-excluded payload and the extra hashed
password (patch_admin lines 180-190): every field present in the payload
overwrites the row, absent fields are untouched, and a present password
is stored as its hash (the extra_data entry wins over the plaintext). -/
def apply_update (a : Admin) (u : AdminUpdate) : Admin :=
  { id := a.id
    prefix_name := Option.getD u.prefix_name a.prefix_name
    first_name := Option.getD u.first_name a.first_name
    middle_name := Option.getD u.middle_name a.middle_name
    last_name := Option.getD u.last_name a.last_name
    suffix_name := Option.getD u.suffix_name a.suffix_name
    national_id := Option.getD u.national_id a.national_id
    gender := Option.getD u.gender a.gender
    birthday := Option.getD u.birthday a.birthday
    phone := Option.getD u.phone a.phone
    address := Option.getD u.address a.address
    username := Option.getD u.username a.username
    email := Option.getD u.email a.email
    role := Option.getD u.role a.role
    status := Option.getD u.status a.status
    password :=
      match u.password with
      | some p => get_password_hash p
      | none => a.password }

/-- Commit of a mutated row: the row with the given primary key is
replaced in the table. -/
def replaceRow (db : Database) (key : Nat) (a2 : Admin) : Database :=
  List.map (fun x => if x.id == key then a2 else x) db

/-- PATCH /admins/{admin_id} (patch_admin): ownership check, fetch,
404 when absent, merge the sparse payload, commit. -/
def patch_admin (db : Database) (caller : Caller) (admin_id : Nat)
    (u : AdminUpdate) : ApiResult Admin × Database :=
  if caller.role == AdminRole.GENERAL_ADMIN && admin_id != caller.id then
    (ApiResult.err forbiddenEditErr, db)
  else
    match sessionGet db admin_id with
    | none => (ApiResult.err notFoundErr, db)
    | some a =>
      let a2 := apply_update a u
      (ApiResult.ok a2, replaceRow db admin_id a2)

/-- DELETE /admins/{admin_id} (delete_admin): ownership check, fetch,
404 when absent, hard delete, return the removed row. -/
def delete_admin (db : Database) (caller : Caller) (admin_id : Nat) :
    ApiResult Admin × Database :=
  if caller.role == AdminRole.GENERAL_ADMIN && admin_id != caller.id then
    (ApiResult.err forbiddenDeleteErr, db)
  else
    match sessionGet db admin_id with
    | none => (ApiResult.err notFoundErr, db)
    | some a => (ApiResult.ok a, List.filter (fun x => x.id != admin_id) db)

/-- The optional filter fields of GET /admins/search/. -/
structure SearchParams where
  username : Option String
  email : Option String
  role : Option AdminRole
  status : Option AdminStatus
  national_id : Option String
  gender : Option String
  phone : Option Nat
deriving DecidableEq, Repr

/-- Case-insensitive substring containment, the semantics of
ilike("%username%"). -/
def strContainsCI (hay needle : String) : Bool :=
  decide (1 < List.length (String.splitOn (String.toLower hay)
    (String.toLower needle))) || String.toLower needle == ""

/-- One `if value: conditions.append(...)` step for a string filter: the
Python truthiness check passes only when the value is present and
non-empty. -/
def strFilterConds (v : Option String)
    (f : String → Admin → Bool) : List (Admin → Bool) :=
  match v with
  | some s => if s == "" then [] else [f s]
  | none => []

/-- One `if value: conditions.append(...)` step for an enum filter
(role, status): an enum member is always truthy, so the check passes
whenever the value is present. -/
def enumFilterConds {α : Type} (v : Option α)
    (f : α → Admin → Bool) : List (Admin → Bool) :=
  match v with
  | some x => [f x]
  | none => []

/-- One `if value: conditions.append(...)` step for the int filter
(phone): zero is falsy, so the check passes only when the value is
present and nonzero. -/
def natFilterConds (v : Option Nat)
    (f : Nat → Admin → Bool) : List (Admin → Bool) :=
  match v with
  | some n => if n == 0 then [] else [f n]
  | none => []

/-- search_admins lines 267-280: one condition appended per filter whose
Python truthiness check passes, in source order. -/
def buildConditions (p : SearchParams) : List (Admin → Bool) :=
  strFilterConds p.username (fun s a => strContainsCI a.username s) ++
  strFilterConds p.email (fun s a => a.email == s) ++
  enumFilterConds p.role (fun r a => a.role == r) ++
  enumFilterConds p.status (fun st a => a.status == st) ++
  strFilterConds p.national_id (fun s a => a.national_id == s) ++
  strFilterConds p.gender (fun s a => a.gender == s) ++
  natFilterConds p.phone (fun n a => a.phone == n)

/-- search_admins lines 288-295: combine the conditions with the chosen
combinator.  AND and OR fold the whole list; the NOT branch calls
sqlalchemy not_ with the conditions unpacked as positional arguments,
and not_ accepts exactly one clause, so any other arity raises a Python
TypeError — modelled as the error case. -/
def combineConds (operatorV : LogicalOperator)
    (conds : List (Admin → Bool)) : Except Unit (Admin → Bool) :=
  match operatorV with
  | LogicalOperator.AND => Except.ok (fun a => List.all conds (fun c => c a))
  | LogicalOperator.OR => Except.ok (fun a => List.any conds (fun c => c a))
  | LogicalOperator.NOT =>
    match conds with
    | [c] => Except.ok (fun a => ! c a)
    | _ => Except.error ()

/-- The outcome of GET /admins/search/: a row list, an HTTPException, or
an unhandled Python TypeError escaping the handler. -/
inductive SearchResult
  | ok : List Admin → SearchResult
  | http : HttpError → SearchResult
  | typeError : SearchResult
deriving DecidableEq, Repr

/-- GET /admins/search/ (search_admins).  The caller is received from the
auth dependency but never consulted beyond the role allow-list shared by
every endpoint.  Conditions are built from the filters; zero conditions
is a 400; the combined predicate filters the table, the offset/limit
window is applied, and an empty result is a 404. -/
def search_admins (db : Database) (caller : Caller) (p : SearchParams)
    (operatorV : LogicalOperator) (offset limit : Nat) : SearchResult :=
  if List.isEmpty (buildConditions p) then
    SearchResult.http noFilterErr
  else
    match combineConds operatorV (buildConditions p) with
    | Except.error _ => SearchResult.typeError
    | Except.ok pred =>
      if List.isEmpty (List.take limit (List.drop offset (List.filter pred db)))
      then SearchResult.http searchNotFoundErr
      else SearchResult.ok (List.take limit (List.drop offset (List.filter pred db)))

/-- The validation of the offset query parameter, Query(default=0, ge=0). -/
def offset_valid (o : Int) : Bool := decide (0 ≤ o)

/-- The validation of the limit query parameter, Query(default=100, le=100):
only an upper bound. -/
def limit_valid (l : Int) : Bool := decide (l ≤ 100)

/-- The framework validation layer for the pagination parameters of the
list and search endpoints: both values pass their declared bounds or the
request is rejected before the handler runs; accepted values are handed
to the handler unchanged. -/
def parse_pagination (o l : Int) : Option (Int × Int) :=
  if offset_valid o && limit_valid l then some (o, l) else none

/-- Python truthiness of an optional string query parameter. -/
def truthyOptStr : Option String → Bool
  | some s => !(s == "")
  | none => false

/-- Python truthiness of an optional int query parameter. -/
def truthyOptNat : Option Nat → Bool
  | some n => !(n == 0)
  | none => false

/-- The number of supplied filter fields whose truthiness check passes. -/
def countTruthyFilters (p : SearchParams) : Nat :=
  (if truthyOptStr p.username then 1 else 0) +
  (if truthyOptStr p.email then 1 else 0) +
  (if p.role.isSome then 1 else 0) +
  (if p.status.isSome then 1 else 0) +
  (if truthyOptStr p.national_id then 1 else 0) +
  (if truthyOptStr p.gender then 1 else 0) +
  (if truthyOptNat p.phone then 1 else 0)

/-- A sample table row used by concrete instantiations. -/
def sampleAdmin (i : Nat) (u e n : String) (r : AdminRole)
    (st : AdminStatus) (ph : Nat) : Admin :=
  ⟨i, none, "f", none, "l", none, n, "x", "2000-01-01", ph, "addr",
   u, e, r, st, "hash$pw"⟩

/-- Row 1: a general admin. -/
def adminA : Admin :=
  sampleAdmin 1 "u1" "e1" "n1" AdminRole.GENERAL_ADMIN AdminStatus.ACTIVE 11

/-- Row 2: another general admin. -/
def adminB : Admin :=
  sampleAdmin 2 "u2" "e2" "n2" AdminRole.GENERAL_ADMIN AdminStatus.ACTIVE 22

/-- Row 3: an inactive super admin with phone 0. -/
def adminC : Admin :=
  sampleAdmin 3 "u3" "e3" "n3" AdminRole.SUPER_ADMIN AdminStatus.INACTIVE 0

/-- A GENERAL_ADMIN caller whose own row is adminA. -/
def gCaller : Caller := ⟨1, AdminRole.GENERAL_ADMIN⟩

/-- A SUPER_ADMIN caller. -/
def sCaller : Caller := ⟨1, AdminRole.SUPER_ADMIN⟩

/-- A sample create request asking for the SUPER_ADMIN role. -/
def acSample : AdminCreate :=
  ⟨none, "f", none, "l", none, "n9", "x", "2000-01-01", 9, "addr",
   "u9", "e9", AdminRole.SUPER_ADMIN, AdminStatus.ACTIVE, "pw"⟩

/-- A create request whose username collides with adminA. -/
def acDup : AdminCreate :=
  ⟨none, "f", none, "l", none, "nX", "x", "2000-01-01", 9, "addr",
   "u1", "eX", AdminRole.SUPER_ADMIN, AdminStatus.ACTIVE, "pw"⟩

/-- Search filters: role and status both supplied. -/
def paramsRoleStatus : SearchParams :=
  ⟨none, none, some AdminRole.GENERAL_ADMIN, some AdminStatus.ACTIVE,
   none, none, none⟩

/-- Search filters: only the role, GENERAL_ADMIN. -/
def paramsRoleGeneral : SearchParams :=
  ⟨none, none, some AdminRole.GENERAL_ADMIN, none, none, none, none⟩

/-- Search filters: only the role, SUPER_ADMIN. -/
def paramsRoleSuper : SearchParams :=
  ⟨none, none, some AdminRole.SUPER_ADMIN, none, none, none, none⟩

/-- Search filters: only the phone, supplied as 0 (non-null but falsy). -/
def phoneZeroParams : SearchParams :=
  ⟨none, none, none, none, none, none, some 0⟩

/-- A sparse patch payload carrying only a new password. -/
def pwOnlyPayload : AdminUpdate :=
  ⟨none, none, none, none, none, none, none, none, none, none, none, none,
   none, none, some "pw2"⟩

/-! Claim theorems. -/

/-- C1: for every create request made by a GENERAL_ADMIN caller, the role
stored in the newly persisted Admin record is GENERAL_ADMIN regardless of
the role supplied in the request body; for a SUPER_ADMIN caller the
requested role is honored.  The persisted row is the returned row. -/
theorem create_role_forcing (db : Database) (caller : Caller)
    (ac : AdminCreate) (newId : Nat) (fault : Option String)
    (a : Admin) (db2 : Database)
    (h : create_admin db caller ac newId fault = (ApiResult.ok a, db2)) :
    (caller.role = AdminRole.GENERAL_ADMIN → a.role = AdminRole.GENERAL_ADMIN) ∧
    (caller.role = AdminRole.SUPER_ADMIN → a.role = ac.role) ∧
    a ∈ db2 := by
  unfold create_admin at h
  split at h
  · simp at h
  · split at h
    · simp at h
    · simp only [Prod.mk.injEq, ApiResult.ok.injEq] at h
      obtain ⟨ha, hdb⟩ := h
      refine ⟨?_, ?_, ?_⟩
      · intro hg
        rw [← ha]
        simp [buildAdmin, hg]
      · intro hs
        rw [← ha]
        simp [buildAdmin, hs]
      · rw [← hdb, ← ha]
        simp

/-- Witness for C1 at a concrete input: a GENERAL_ADMIN caller creating
an admin that requests SUPER_ADMIN gets a persisted GENERAL_ADMIN row. -/
theorem create_role_forcing_witness :
    (buildAdmin ⟨9, AdminRole.GENERAL_ADMIN⟩ acSample 1).role =
      AdminRole.GENERAL_ADMIN :=
  (create_role_forcing [] ⟨9, AdminRole.GENERAL_ADMIN⟩ acSample 1 none
    (buildAdmin ⟨9, AdminRole.GENERAL_ADMIN⟩ acSample 1)
    [buildAdmin ⟨9, AdminRole.GENERAL_ADMIN⟩ acSample 1] (by decide)).1 rfl

/-- C2: for every get/patch/delete by-id request where the caller role is
GENERAL_ADMIN and the path id differs from the caller's id, the handler
fails with the 403 error and the table is unchanged, whatever the table
contents (the check precedes any persistence access). -/
theorem ownership_check_forbids (db : Database) (caller : Caller)
    (admin_id : Nat) (u : AdminUpdate)
    (hrole : caller.role = AdminRole.GENERAL_ADMIN)
    (hid : admin_id ≠ caller.id) :
    get_admin db caller admin_id = (ApiResult.err forbiddenViewErr, db) ∧
    patch_admin db caller admin_id u = (ApiResult.err forbiddenEditErr, db) ∧
    delete_admin db caller admin_id = (ApiResult.err forbiddenDeleteErr, db) ∧
    forbiddenViewErr.status_code = 403 ∧
    forbiddenEditErr.status_code = 403 ∧
    forbiddenDeleteErr.status_code = 403 := by
  have hcond :
      (caller.role == AdminRole.GENERAL_ADMIN && admin_id != caller.id) = true := by
    simp [hrole, hid]
  refine ⟨?_, ?_, ?_, rfl, rfl, rfl⟩
  · simp [get_admin, hcond]
  · simp [patch_admin, hcond]
  · simp [delete_admin, hcond]

/-- Witness for C2 at a concrete input: caller id 1, path id 2. -/
theorem ownership_check_forbids_witness :
    get_admin [adminA] gCaller 2 = (ApiResult.err forbiddenViewErr, [adminA]) :=
  (ownership_check_forbids [adminA] gCaller 2 AdminUpdate.emptyPayload rfl
    (by decide)).1

/-- C3 fails on the code: the search endpoint applies no ownership
restriction, so a GENERAL_ADMIN caller (id 1) searching on role receives
the row of admin id 2, another admin's record. -/
theorem general_admin_search_leak :
    gCaller.role = AdminRole.GENERAL_ADMIN ∧
    adminB.id ≠ gCaller.id ∧
    search_admins [adminA, adminB] gCaller paramsRoleGeneral
      LogicalOperator.AND 0 100 = SearchResult.ok [adminA, adminB] := by
  refine ⟨rfl, by decide, ?_⟩
  decide

/-- C3 amended: a GENERAL_ADMIN caller is restricted to their own record
on the list, get-by-id, update-by-id and delete-by-id operations, but the
search operation is not ownership-scoped: its outcome is independent of
the caller, so it can return other admins' records to a GENERAL_ADMIN
caller.  A SUPER_ADMIN caller is unrestricted. -/
theorem general_admin_scope_amended (db : Database) (c c2 : Caller)
    (admin_id : Nat) (u : AdminUpdate) (p : SearchParams)
    (operatorV : LogicalOperator) (offset limit : Nat)
    (hrole : c.role = AdminRole.GENERAL_ADMIN)
    (hid : admin_id ≠ c.id) :
    get_admins db c offset limit = ListResult.single (sessionGet db c.id) ∧
    (get_admin db c admin_id).1 = ApiResult.err forbiddenViewErr ∧
    (patch_admin db c admin_id u).1 = ApiResult.err forbiddenEditErr ∧
    (delete_admin db c admin_id).1 = ApiResult.err forbiddenDeleteErr ∧
    search_admins db c p operatorV offset limit =
      search_admins db c2 p operatorV offset limit := by
  have hcond :
      (c.role == AdminRole.GENERAL_ADMIN && admin_id != c.id) = true := by
    simp [hrole, hid]
  refine ⟨?_, ?_, ?_, ?_, rfl⟩
  · simp [get_admins, hrole]
  · simp [get_admin, hcond]
  · simp [patch_admin, hcond]
  · simp [delete_admin, hcond]

/-- Witness for the amended C3 at a concrete input. -/
theorem general_admin_scope_amended_witness :
    get_admins [adminA, adminB] gCaller 0 100 =
      ListResult.single (sessionGet [adminA, adminB] gCaller.id) :=
  (general_admin_scope_amended [adminA, adminB] gCaller sCaller 2
    AdminUpdate.emptyPayload paramsRoleGeneral LogicalOperator.AND 0 100
    rfl (by decide)).1

/-- C4: evaluating the code at the failing input.  With combinator NOT
and two supplied filters (role=GENERAL_ADMIN, status=ACTIVE) the handler
builds two conditions, a row satisfying neither filter exists (adminC,
which the claim says would be returned), yet the call to the one-clause
negation with two positional conditions raises a TypeError instead of
producing any row list. -/
theorem not_multi_filter_type_error :
    (buildConditions paramsRoleStatus).length = 2 ∧
    List.filter (fun a => !(a.role == AdminRole.GENERAL_ADMIN) &&
      !(a.status == AdminStatus.ACTIVE)) [adminA, adminB, adminC] = [adminC] ∧
    search_admins [adminA, adminB, adminC] sCaller paramsRoleStatus
      LogicalOperator.NOT 0 100 = SearchResult.typeError := by
  refine ⟨rfl, by decide, ?_⟩
  decide

/-- C5 fails on the code: phone is supplied and non-null, but 0 is falsy
in Python, so no predicate is built and the search fails with the 400
no-filters error even though a row with phone 0 exists. -/
theorem phone_zero_filter_yields_400 :
    phoneZeroParams.phone = some 0 ∧
    adminC ∈ ([adminA, adminB, adminC] : Database) ∧ adminC.phone = 0 ∧
    search_admins [adminA, adminB, adminC] sCaller phoneZeroParams
      LogicalOperator.AND 0 100 = SearchResult.http noFilterErr ∧
    noFilterErr.status_code = 400 := by
  refine ⟨rfl, by decide, rfl, ?_, rfl⟩
  decide

/-- The length of one string-filter step is its truthiness count. -/
theorem strFilterConds_length (v : Option String) (f : String → Admin → Bool) :
    (strFilterConds v f).length = if truthyOptStr v then 1 else 0 := by
  cases v with
  | none => rfl
  | some s =>
    by_cases h : s == "" <;> simp [strFilterConds, truthyOptStr, h]

/-- The length of one enum-filter step is its presence count. -/
theorem enumFilterConds_length {α : Type} (v : Option α)
    (f : α → Admin → Bool) :
    (enumFilterConds v f).length = if v.isSome then 1 else 0 := by
  cases v <;> rfl

/-- The length of the int-filter step is its truthiness count. -/
theorem natFilterConds_length (v : Option Nat) (f : Nat → Admin → Bool) :
    (natFilterConds v f).length = if truthyOptNat v then 1 else 0 := by
  cases v with
  | none => rfl
  | some n =>
    by_cases h : n == 0 <;> simp [natFilterConds, truthyOptNat, h]

/-- With at least one built condition, the search never reports the
no-filters error: every later outcome differs from it. -/
theorem search_ne_noFilter (db : Database) (caller : Caller)
    (p : SearchParams) (operatorV : LogicalOperator) (offset limit : Nat)
    (hne : (buildConditions p).isEmpty = false) :
    search_admins db caller p operatorV offset limit ≠
      SearchResult.http noFilterErr := by
  unfold search_admins
  rw [hne]
  simp only [Bool.false_eq_true, if_false]
  split
  · simp
  · split
    · decide
    · simp

/-- C5 amended: one predicate is built per supplied truthy filter field
(non-empty username/email/national_id/gender, any present role/status,
nonzero phone), and the search fails with the 400 no-filters error
exactly when zero predicates were built.  A supplied but falsy filter
(empty string, phone 0) builds no predicate, so it does not prevent the
400 error; with no supplied filters the search never returns a page. -/
theorem search_filter_count_amended (db : Database) (caller : Caller)
    (p : SearchParams) (operatorV : LogicalOperator) (offset limit : Nat) :
    (buildConditions p).length = countTruthyFilters p ∧
    (search_admins db caller p operatorV offset limit =
        SearchResult.http noFilterErr ↔ countTruthyFilters p = 0) := by
  have hlen : (buildConditions p).length = countTruthyFilters p := by
    simp only [buildConditions, countTruthyFilters, List.length_append,
      strFilterConds_length, enumFilterConds_length, natFilterConds_length]
  refine ⟨hlen, ?_, ?_⟩
  · intro h
    by_contra hc
    have hne : (buildConditions p).isEmpty = false := by
      rw [List.isEmpty_eq_false]
      intro hnil
      exact hc (by rw [← hlen, hnil]; rfl)
    exact search_ne_noFilter db caller p operatorV offset limit hne h
  · intro hc
    have hnil : buildConditions p = [] :=
      List.length_eq_zero.mp (by rw [hlen, hc])
    unfold search_admins
    rw [hnil]
    rfl

/-- Witness for the amended C5 at a concrete input: with only phone=0
supplied, zero predicates are built and the 400 error is returned. -/
theorem search_filter_count_amended_witness :
    (buildConditions phoneZeroParams).length =
      countTruthyFilters phoneZeroParams ∧
    (search_admins [adminA, adminB, adminC] sCaller phoneZeroParams
        LogicalOperator.AND 0 100 = SearchResult.http noFilterErr ↔
      countTruthyFilters phoneZeroParams = 0) :=
  search_filter_count_amended [adminA, adminB, adminC] sCaller
    phoneZeroParams LogicalOperator.AND 0 100

/-- C6: a create request that duplicates an existing username, email or
national_id fails with the 409 conflict error and leaves the table
unchanged (rollback, no row added); a create request that hits any other
persistence failure leaves the table unchanged and reports the 500
internal error. -/
theorem create_conflict_rollback (db : Database) (caller : Caller)
    (ac : AdminCreate) (newId : Nat) (fault : Option String) (e : String) :
    (List.any db (fun x => x.username == ac.username ||
        x.email == ac.email || x.national_id == ac.national_id) = true →
      create_admin db caller ac newId fault = (ApiResult.err conflictErr, db) ∧
      conflictErr.status_code = 409) ∧
    (violatesUnique db (buildAdmin caller ac newId) = false → fault = some e →
      create_admin db caller ac newId fault =
        (ApiResult.err (internalCreateErr e), db) ∧
      (internalCreateErr e).status_code = 500) := by
  constructor
  · intro hdup
    have hv : violatesUnique db (buildAdmin caller ac newId) = true := by
      unfold violatesUnique
      rw [List.any_eq_true] at hdup ⊢
      obtain ⟨x, hx, ho⟩ := hdup
      refine ⟨x, hx, ?_⟩
      simp only [buildAdmin, Bool.or_eq_true] at ho ⊢
      tauto
    refine ⟨?_, rfl⟩
    unfold create_admin
    rw [hv]
    rfl
  · intro hok hf
    refine ⟨?_, rfl⟩
    unfold create_admin
    rw [hok, hf]
    rfl

/-- Witness for C6 at a concrete input: creating with the username of
adminA yields the 409 conflict and the unchanged one-row table. -/
theorem create_conflict_rollback_witness :
    create_admin [adminA] sCaller acDup 5 none =
      (ApiResult.err conflictErr, [adminA]) :=
  ((create_conflict_rollback [adminA] sCaller acDup 5 none "e").1
    (by decide)).1

/-- The modelled hash is never the plaintext it was computed from. -/
theorem get_password_hash_ne (p : String) : get_password_hash p ≠ p := by
  intro h
  have hl := congrArg String.length h
  rw [show get_password_hash p = "hash$" ++ p from rfl, String.length_append,
    show "hash$".length = 5 from rfl] at hl
  omega

/-- C7: a patch applies exactly the supplied fields to the fetched row:
every field absent from the payload keeps its pre-update value, the empty
payload changes nothing, and a supplied password is stored as its hash,
never as the submitted plaintext. -/
theorem patch_frame (db : Database) (caller : Caller) (admin_id : Nat)
    (u : AdminUpdate) (a : Admin)
    (hok : caller.role = AdminRole.SUPER_ADMIN ∨ admin_id = caller.id)
    (hget : sessionGet db admin_id = some a) :
    patch_admin db caller admin_id u =
      (ApiResult.ok (apply_update a u),
       replaceRow db admin_id (apply_update a u)) ∧
    (u.prefix_name = none → (apply_update a u).prefix_name = a.prefix_name) ∧
    (u.first_name = none → (apply_update a u).first_name = a.first_name) ∧
    (u.middle_name = none → (apply_update a u).middle_name = a.middle_name) ∧
    (u.last_name = none → (apply_update a u).last_name = a.last_name) ∧
    (u.suffix_name = none → (apply_update a u).suffix_name = a.suffix_name) ∧
    (u.national_id = none → (apply_update a u).national_id = a.national_id) ∧
    (u.gender = none → (apply_update a u).gender = a.gender) ∧
    (u.birthday = none → (apply_update a u).birthday = a.birthday) ∧
    (u.phone = none → (apply_update a u).phone = a.phone) ∧
    (u.address = none → (apply_update a u).address = a.address) ∧
    (u.username = none → (apply_update a u).username = a.username) ∧
    (u.email = none → (apply_update a u).email = a.email) ∧
    (u.role = none → (apply_update a u).role = a.role) ∧
    (u.status = none → (apply_update a u).status = a.status) ∧
    (u.password = none → (apply_update a u).password = a.password) ∧
    (apply_update a u).id = a.id ∧
    (u = AdminUpdate.emptyPayload → apply_update a u = a) ∧
    (∀ pw, u.password = some pw →
      (apply_update a u).password = get_password_hash pw ∧
      (apply_update a u).password ≠ pw) := by
  have hcond :
      (caller.role == AdminRole.GENERAL_ADMIN && admin_id != caller.id)
        = false := by
    rcases hok with h | h
    · simp [h]
    · simp [h]
  refine ⟨?_, fun h => by simp [apply_update, h], fun h => by simp [apply_update, h],
    fun h => by simp [apply_update, h], fun h => by simp [apply_update, h],
    fun h => by simp [apply_update, h], fun h => by simp [apply_update, h],
    fun h => by simp [apply_update, h], fun h => by simp [apply_update, h],
    fun h => by simp [apply_update, h], fun h => by simp [apply_update, h],
    fun h => by simp [apply_update, h], fun h => by simp [apply_update, h],
    fun h => by simp [apply_update, h], fun h => by simp [apply_update, h],
    fun h => by simp [apply_update, h], rfl, ?_, ?_⟩
  · unfold patch_admin
    rw [hcond]
    simp only [Bool.false_eq_true, if_false]
    rw [hget]
  · intro h
    rw [h]
    rfl
  · intro pw hpw
    refine ⟨by simp [apply_update, hpw], ?_⟩
    rw [show (apply_update a u).password =
      match u.password with
      | some p => get_password_hash p
      | none => a.password from rfl, hpw]
    exact get_password_hash_ne pw

/-- Witness for C7 at a concrete input: patching adminA with only a new
password succeeds and stores the hash. -/
theorem patch_frame_witness :
    patch_admin [adminA] sCaller 1 pwOnlyPayload =
      (ApiResult.ok (apply_update adminA pwOnlyPayload),
       replaceRow [adminA] 1 (apply_update adminA pwOnlyPayload)) :=
  (patch_frame [adminA] sCaller 1 pwOnlyPayload adminA (Or.inl rfl)
    (by decide)).1

/-- C8: a list request by a GENERAL_ADMIN caller ignores offset and
limit and returns the caller's own record as a single-element result,
not a collection; a SUPER_ADMIN caller gets the page of rows bounded by
offset and limit. -/
theorem list_self_view (db : Database) (caller : Caller)
    (o1 l1 o2 l2 : Nat) :
    (caller.role = AdminRole.GENERAL_ADMIN →
      get_admins db caller o1 l1 =
        ListResult.single (sessionGet db caller.id) ∧
      get_admins db caller o1 l1 = get_admins db caller o2 l2) ∧
    (caller.role = AdminRole.SUPER_ADMIN →
      get_admins db caller o1 l1 =
        ListResult.page (List.take l1 (List.drop o1 db)) ∧
      (List.take l1 (List.drop o1 db)).length ≤ l1) := by
  constructor
  · intro h
    constructor <;> simp [get_admins, h]
  · intro h
    refine ⟨by simp [get_admins, h], List.length_take_le l1 _⟩

/-- Witness for C8 at a concrete input: a GENERAL_ADMIN caller gets a
single-element self view whatever the pagination arguments. -/
theorem list_self_view_witness :
    get_admins [adminA, adminB] gCaller 1 1 =
      ListResult.single (sessionGet [adminA, adminB] gCaller.id) ∧
    get_admins [adminA, adminB] gCaller 1 1 =
      get_admins [adminA, adminB] gCaller 0 100 :=
  (list_self_view [adminA, adminB] gCaller 1 1 0 100).1 rfl

/-- C9: a search whose combined filter leaves an empty page after offset
and limit reports the 404 not-found error, and a successful search never
carries an empty list. -/
theorem search_empty_not_found (db : Database) (caller : Caller)
    (p : SearchParams) (operatorV : LogicalOperator) (offset limit : Nat) :
    (∀ res, search_admins db caller p operatorV offset limit =
        SearchResult.ok res → res ≠ []) ∧
    (∀ pred, combineConds operatorV (buildConditions p) = Except.ok pred →
      (buildConditions p).isEmpty = false →
      List.take limit (List.drop offset (List.filter pred db)) = [] →
      search_admins db caller p operatorV offset limit =
        SearchResult.http searchNotFoundErr ∧
      searchNotFoundErr.status_code = 404) := by
  constructor
  · intro res h hres
    unfold search_admins at h
    split at h
    · simp at h
    · split at h
      · simp at h
      · split at h
        · simp at h
        · rename_i hcb hemp
          simp only [SearchResult.ok.injEq] at h
          rw [← h] at hres
          rw [hres] at hemp
          simp at hemp
  · intro pred hcb hne hempt
    refine ⟨?_, rfl⟩
    unfold search_admins
    rw [hne]
    simp only [Bool.false_eq_true, if_false]
    rw [hcb]
    dsimp only
    rw [hempt]
    rfl

/-- Witness for C9 at a concrete input: filtering a one-row table of a
general admin for role SUPER_ADMIN matches nothing and reports 404. -/
theorem search_empty_not_found_witness :
    search_admins [adminA] sCaller paramsRoleSuper LogicalOperator.AND 0 100 =
      SearchResult.http searchNotFoundErr ∧
    searchNotFoundErr.status_code = 404 :=
  (search_empty_not_found [adminA] sCaller paramsRoleSuper
    LogicalOperator.AND 0 100).2
    (fun a => List.all (buildConditions paramsRoleSuper) (fun c => c a))
    rfl rfl (by decide)

/-- C10: the limit query parameter of the list and search endpoints is
validated only against the upper bound 100, so any negative limit passes
validation and is forwarded unchanged, while a negative offset is
rejected. -/
theorem pagination_bounds (l : Int) (h : l < 0) :
    limit_valid l = true ∧ offset_valid l = false ∧
    parse_pagination 0 l = some (0, l) ∧ parse_pagination l 100 = none := by
  have h1 : limit_valid l = true := by
    simp only [limit_valid, decide_eq_true_eq]
    omega
  have h2 : offset_valid l = false := by
    simp only [offset_valid, decide_eq_false_iff_not]
    omega
  refine ⟨h1, h2, ?_, ?_⟩
  · unfold parse_pagination
    rw [h1, show offset_valid 0 = true from rfl]
    rfl
  · unfold parse_pagination
    rw [h2]
    rfl

/-- Witness for C10 at a concrete input: limit -7 passes validation,
offset -7 does not. -/
theorem pagination_bounds_witness :
    limit_valid (-7) = true ∧ offset_valid (-7) = false ∧
    parse_pagination 0 (-7) = some (0, -7) ∧
    parse_pagination (-7) 100 = none :=
  pagination_bounds (-7) (by decide)
